import Mathlib

set_option maxHeartbeats 1000000

/- Shallow embedding of the error-reporting service in src/main.go.
   Go strings are modelled as lists of characters; Go byte values as
   natural numbers below 256; Go int as Int. -/

/-- result of calling Error() on a Go error value: its message string. -/
structure GoErr where
  msg : List Char
deriving DecidableEq

/-- a Go interface value passed as a variadic fmt argument
    (the dynamic types that occur in this program). -/
inductive GoValue where
  | str (s : List Char)
  | int (n : Int)
  | err (e : GoErr)
deriving DecidableEq

/-- dynamic type name of an interface value, used in fmt %! diagnostics. -/
def GoValue.typeName : GoValue → List Char
  | .str _ => "string".data
  | .int _ => "int".data
  | .err _ => "error".data

/-- decimal rendering of a Go int. -/
def intChars (n : Int) : List Char := (toString n).data

/-- default (%v-style) rendering of an interface value; fmt renders an
    error value through its Error method, i.e. as its message. -/
def GoValue.plain : GoValue → List Char
  | .str s => s
  | .int n => intChars n
  | .err e => e.msg

/-- escaping of one character inside a Go double-quoted string literal
    (strconv.Quote), for the character range this program produces. -/
def quoteChar (c : Char) : List Char :=
  if c = '"' then ['\\', '"']
  else if c = '\\' then ['\\', '\\']
  else if c = '\n' then ['\\', 'n']
  else if c = '\r' then ['\\', 'r']
  else if c = '\t' then ['\\', 't']
  else [c]

/-- body of a Go double-quoted string literal. -/
def goQuoteBody : List Char → List Char
  | [] => []
  | c :: cs => quoteChar c ++ goQuoteBody cs

/-- Go %q rendering of a string: strconv.Quote. -/
def goQuote (s : List Char) : List Char :=
  '"' :: (goQuoteBody s ++ ['"'])

/-- rendering of one fmt argument under one verb.  Go's fmt never fails:
    a verb applied to an unsupported argument type yields a %!verb(type=value)
    diagnostic in the output instead of an error.  %q on an int is Go's
    quoted-rune form (surrogate code points, unreachable from this program,
    are approximated by the NUL character where Go substitutes U+FFFD). -/
def fmtValue (verb : Char) (v : GoValue) : List Char :=
  match verb, v with
  | 'v', v => v.plain
  | 's', .str s => s
  | 's', .err e => e.msg
  | 'q', .str s => goQuote s
  | 'q', .int n =>
      if 0 ≤ n ∧ n < 1114112 then '\x27' :: (quoteChar (Char.ofNat n.toNat) ++ ['\x27'])
      else '%' :: '!' :: 'q' :: '(' :: ("int=".data ++ intChars n ++ [')'])
  | 'd', .int n => intChars n
  | c, v => '%' :: '!' :: c :: '(' :: (v.typeName ++ '=' :: (v.plain ++ [')']))

/-- the EXTRA-arguments list fmt appends when arguments remain unconsumed. -/
def extraArgs : List GoValue → List Char
  | [] => []
  | [v] => v.typeName ++ '=' :: v.plain
  | v :: vs => v.typeName ++ '=' :: (v.plain ++ ',' :: ' ' :: extraArgs vs)

/-- one pass of fmt.Sprintf over the format characters.  Total by
    construction, mirroring fmt's policy of emitting %! diagnostics for
    malformed format/argument combinations instead of failing.  The
    character after % is taken as the verb (the source's format strings
    use no flags or widths). -/
def fmtLoop : List Char → List GoValue → List Char
  | [], [] => []
  | [], v :: vs => "%!(EXTRA ".data ++ (extraArgs (v :: vs) ++ [')'])
  | ['%'], _ => "%!(NOVERB)".data
  | '%' :: '%' :: rest, vs => '%' :: fmtLoop rest vs
  | '%' :: c :: rest, [] => '%' :: '!' :: c :: ("(MISSING)".data ++ fmtLoop rest [])
  | '%' :: c :: rest, v :: vs => fmtValue c v ++ fmtLoop rest vs
  | c :: rest, vs => c :: fmtLoop rest vs

/-- fmt.Sprintf. -/
def sprintf (format : List Char) (args : List GoValue) : List Char :=
  fmtLoop format args

/-- the hex digit table of encoding/hex. -/
def hexTable : List Char := "0123456789abcdef".data

/-- hex digit for a value below 16 (encoding/hex indexes its table). -/
def hexDigit (n : Nat) : Char := hexTable.getD n '0'

/-- encoding/hex.Encode of one byte: high nibble then low nibble. -/
def byteToHex (b : Nat) : List Char := [hexDigit (b / 16), hexDigit (b % 16)]

/-- encoding/hex.Encode of a byte slice. -/
def hexEncode : List Nat → List Char
  | [] => []
  | b :: bs => byteToHex b ++ hexEncode bs

/-- numeric value of a hex digit character. -/
def hexDigitVal (c : Char) : Nat := hexTable.indexOf c

/-- decoding of a hex character string back to bytes (pairs of digits). -/
def hexDecode : List Char → List Nat
  | c1 :: c2 :: rest => (16 * hexDigitVal c1 + hexDigitVal c2) :: hexDecode rest
  | _ => []

/-- outcome of crypto/rand.Read into the 16-byte array u: either the 16
    random bytes read, or the failure of the secure random source. -/
inductive RandSource where
  | ok (u : List Nat)
  | fail (e : GoErr)

/-- genUUID from src/main.go: hex-encode the four byte groups u[0:4],
    u[4:6], u[6:8], u[8:10], u[10:] separated by hyphens; on rand.Read
    failure return the empty string and a wrapped error. -/
def genUUID (r : RandSource) : Except GoErr (List Char) :=
  match r with
  | .fail e => .error ⟨sprintf "genUUID: %v".data [.err e]⟩
  | .ok u =>
      .ok (hexEncode (u.take 4) ++ ['-'] ++ hexEncode ((u.drop 4).take 2) ++ ['-'] ++
           hexEncode ((u.drop 6).take 2) ++ ['-'] ++ hexEncode ((u.drop 8).take 2) ++ ['-'] ++
           hexEncode (u.drop 10))

/-- httpError from src/main.go: the dual internal / external error value.
    The embedded error interface field is the cause; code, msg and args
    drive the status line and the external rendering. -/
structure httpError where
  cause : GoErr
  code : Int
  msg : List Char
  args : List GoValue
deriving DecidableEq

/-- newHTTPError from src/main.go. -/
def newHTTPError (err : GoErr) (code : Int) (msg : List Char) (args : List GoValue) : httpError :=
  { cause := err, code := code, msg := msg, args := args }

/-- error500 from src/main.go. -/
def error500 (err : GoErr) : httpError :=
  newHTTPError err 500 "internal server error".data []

/-- error400 from src/main.go. -/
def error400 (err : GoErr) (msg : List Char) (args : List GoValue) : httpError :=
  newHTTPError err 400 msg args

/-- error404 from src/main.go. -/
def error404 (err : GoErr) (msg : List Char) (args : List GoValue) : httpError :=
  newHTTPError err 404 msg args

/-- escaping of one character by encoding/json's string encoder with its
    default HTML escaping (as used by json.Marshal and json.Encoder). -/
def jsonQuoteChar (c : Char) : List Char :=
  if c = '"' then ['\\', '"']
  else if c = '\\' then ['\\', '\\']
  else if c = '\n' then ['\\', 'n']
  else if c = '\r' then ['\\', 'r']
  else if c = '\t' then ['\\', 't']
  else if c = '<' then "\\u003c".data
  else if c = '>' then "\\u003e".data
  else if c = '&' then "\\u0026".data
  else if c.toNat < 32 then "\\u00".data ++ byteToHex c.toNat
  else if c.toNat = 8232 then "\\u2028".data
  else if c.toNat = 8233 then "\\u2029".data
  else [c]

/-- body of a JSON string literal. -/
def jsonQuoteBody : List Char → List Char
  | [] => []
  | c :: cs => jsonQuoteChar c ++ jsonQuoteBody cs

/-- encoding/json rendering of a string value. -/
def jsonQuote (s : List Char) : List Char :=
  '"' :: (jsonQuoteBody s ++ ['"'])

/-- MarshalJSON from src/main.go: marshal an anonymous struct whose single
    err field is fmt.Sprintf(err.msg, err.args...).  The cause is not read.
    json.Marshal of a struct with one string field cannot fail (strings are
    always encodable), so the result is always ok. -/
def httpError.marshalJSON (e : httpError) : Except GoErr (List Char) :=
  .ok ("\x7b\"err\":".data ++ jsonQuote (sprintf e.msg e.args) ++ ['\x7d'])

/-- observable actions on the http.ResponseWriter, in order. -/
inductive RespEvent where
  | setHeader (key value : List Char)
  | writeStatus (code : Int)
  | writeBody (bytes : List Char)
deriving DecidableEq

/-- what one call to (*api).error produces: the response-writer actions in
    order and the log lines in order. -/
structure ReportResult where
  events : List RespEvent
  logs : List (List Char)
deriving DecidableEq

/-- the identifier (*api).error continues with: the generated UUID, or the
    empty string when generation failed. -/
def reportID (rand : RandSource) : List Char :=
  match genUUID rand with
  | .ok id => id
  | .error _ => []

/-- (*api).error from src/main.go.  rand is the state of the secure random
    source for this call; wErr models the response stream: some e when the
    stream is broken so that the encoder's write fails with e, none when
    writes succeed.  json.NewEncoder(w).Encode(err) marshals the value
    (through httpError.marshalJSON) and then writes the bytes followed by a
    newline; it fails if marshalling fails or the stream write fails.  The
    %v rendering of the *httpError in the log lines is the promoted Error
    method of the embedded cause (the source comment: it fmt's to the
    underlying error), hence .err e.cause below. -/
def apiError (rand : RandSource) (wErr : Option GoErr) (e : httpError) : ReportResult :=
  let glogs : List (List Char) :=
    match genUUID rand with
    | .ok _ => []
    | .error genErr =>
        [sprintf "genErr=%v, msg=%q".data
          [.err genErr, .str "error while reporting API error".data]]
  let id := reportID rand
  let pre : List RespEvent := [.setHeader "X-Errid".data id, .writeStatus e.code]
  let enc : Except GoErr (List Char) :=
    match e.marshalJSON, wErr with
    | .error m, _ => .error m
    | .ok _, some we => .error we
    | .ok bs, none => .ok (bs ++ ['\n'])
  match enc with
  | .error encodeErr =>
      { events := pre
        logs := glogs ++
          [sprintf "errID=%q, err=%v, encodeErr=%v, msg=%v".data
            [.str id, .err e.cause, .err encodeErr,
             .str "error while reporting API error".data]] }
  | .ok body =>
      { events := pre ++ [.writeBody body]
        logs := glogs ++ [sprintf "errID=%q, err=%v".data [.str id, .err e.cause]] }

/-- errBroken from src/main.go. -/
def errBroken : GoErr := ⟨"server broken".data⟩

/-- exampleHandler from src/main.go:
    a.error(w, error500(fmt.Errorf("exampleHandler: percent-v", errBroken))). -/
def exampleHandler (rand : RandSource) (wErr : Option GoErr) : ReportResult :=
  apiError rand wErr (error500 ⟨sprintf "exampleHandler: %v".data [.err errBroken]⟩)

/-- status code written to the response: the first WriteHeader call. -/
def respStatus : List RespEvent → Option Int
  | [] => none
  | .writeStatus c :: _ => some c
  | _ :: rest => respStatus rest

/-- bytes written to the response body, in order. -/
def respBody : List RespEvent → List Char
  | [] => []
  | .writeBody b :: rest => b ++ respBody rest
  | _ :: rest => respBody rest

/-- value of a response header after the events ran (last Set wins). -/
def getHeader (key : List Char) (evs : List RespEvent) : Option (List Char) :=
  evs.foldl
    (fun acc ev =>
      match ev with
      | .setHeader k v => if k = key then some v else acc
      | _ => acc)
    none

/-- whether needle occurs as a contiguous substring of hay. -/
def containsSub (needle : List Char) : List Char → Bool
  | [] => needle.isEmpty
  | c :: t => needle.isPrefixOf (c :: t) || containsSub needle t

/-- hex digits of values below 16 lie in the hex table. -/
theorem hexDigit_mem : ∀ n < 16, hexDigit n ∈ hexTable := by decide

/-- hexDigitVal inverts hexDigit below 16. -/
theorem hexVal_hexDigit : ∀ n < 16, hexDigitVal (hexDigit n) = n := by decide

/-- a hex digit pair decodes back to the byte it encodes. -/
theorem hexPair (b : Nat) (hb : b < 256) :
    16 * hexDigitVal (hexDigit (b / 16)) + hexDigitVal (hexDigit (b % 16)) = b := by
  have h1 : b / 16 < 16 := by omega
  have h2 : b % 16 < 16 := by omega
  rw [hexVal_hexDigit _ h1, hexVal_hexDigit _ h2]
  omega

/-- hexDecode inverts hexEncode on byte lists. -/
theorem hexDecode_hexEncode (u : List Nat) (hb : ∀ b ∈ u, b < 256) :
    hexDecode (hexEncode u) = u := by
  induction u with
  | nil => rfl
  | cons b bs ih =>
      have hb0 : b < 256 := hb b (by simp)
      have hbs : ∀ x ∈ bs, x < 256 := fun x hx => hb x (by simp [hx])
      simp [hexEncode, byteToHex, hexDecode, hexPair b hb0, ih hbs]

/-- a list of length 16 is an explicit 16-tuple of elements. -/
theorem list16 {α : Type} (u : List α) (h : u.length = 16) :
    ∃ a0 a1 a2 a3 a4 a5 a6 a7 a8 a9 a10 a11 a12 a13 a14 a15,
      u = [a0, a1, a2, a3, a4, a5, a6, a7, a8, a9, a10, a11, a12, a13, a14, a15] := by
  rcases u with _ | ⟨a0, u⟩; · simp at h
  rcases u with _ | ⟨a1, u⟩; · simp at h
  rcases u with _ | ⟨a2, u⟩; · simp at h
  rcases u with _ | ⟨a3, u⟩; · simp at h
  rcases u with _ | ⟨a4, u⟩; · simp at h
  rcases u with _ | ⟨a5, u⟩; · simp at h
  rcases u with _ | ⟨a6, u⟩; · simp at h
  rcases u with _ | ⟨a7, u⟩; · simp at h
  rcases u with _ | ⟨a8, u⟩; · simp at h
  rcases u with _ | ⟨a9, u⟩; · simp at h
  rcases u with _ | ⟨a10, u⟩; · simp at h
  rcases u with _ | ⟨a11, u⟩; · simp at h
  rcases u with _ | ⟨a12, u⟩; · simp at h
  rcases u with _ | ⟨a13, u⟩; · simp at h
  rcases u with _ | ⟨a14, u⟩; · simp at h
  rcases u with _ | ⟨a15, u⟩; · simp at h
  rcases u with _ | ⟨a16, u⟩
  · exact ⟨a0, a1, a2, a3, a4, a5, a6, a7, a8, a9, a10, a11, a12, a13, a14, a15, rfl⟩
  · simp at h

/-- C1 counterexample: the serialized response body is not exactly the bare
    JSON object: even for a concrete call the encoder's trailing newline is
    part of the body. -/
theorem respBody_exact_object_counterexample :
    respBody (apiError (RandSource.fail ⟨"entropy".data⟩) none
        (error500 ⟨"boom".data⟩)).events
      ≠ "\x7b\"err\":\"internal server error\"\x7d".data := by
  decide

/-- C1 amended: the serialized response body is exactly the JSON object with
    single field err holding the rendered external message, followed by the
    encoder's single trailing newline, and it does not depend on the cause:
    two httpErrors that differ only in cause produce byte-identical
    MarshalJSON output and byte-identical response bodies. -/
theorem marshal_independent_of_cause (e1 e2 : httpError)
    (_hc : e1.code = e2.code) (hm : e1.msg = e2.msg) (ha : e1.args = e2.args) :
    (∀ rand, respBody (apiError rand none e1).events
        = "\x7b\"err\":".data ++ jsonQuote (sprintf e1.msg e1.args) ++ ['\x7d', '\n'])
    ∧ e1.marshalJSON = e2.marshalJSON
    ∧ ∀ rand wErr,
        respBody (apiError rand wErr e1).events = respBody (apiError rand wErr e2).events := by
  refine ⟨?_, by simp [httpError.marshalJSON, hm, ha], ?_⟩
  · intro rand
    rcases rand with u | g <;>
      simp [apiError, respBody, httpError.marshalJSON, genUUID, reportID]
  · intro rand wErr
    rcases rand with u | g <;> rcases wErr with _ | we <;>
      simp [apiError, respBody, httpError.marshalJSON, genUUID, reportID, hm, ha]

/-- C1 witness: two concrete httpErrors differing only in cause. -/
theorem marshal_independent_of_cause_witness :
    (newHTTPError ⟨"db password is hunter2".data⟩ 500 "internal server error".data []).marshalJSON
      = (newHTTPError ⟨"different cause".data⟩ 500 "internal server error".data []).marshalJSON :=
  (marshal_independent_of_cause _ _ rfl rfl rfl).2.1

/-- C8: rendering the external JSON is total: MarshalJSON returns ok for
    every httpError, whatever the msg and args; consequently, whenever the
    response stream accepts writes, the reporter always reaches the body
    write, so a serialization failure can only originate from the stream. -/
theorem marshalJSON_total (e : httpError) :
    (∃ bs, e.marshalJSON = Except.ok bs)
    ∧ ∀ rand, ∃ body,
        (apiError rand none e).events
          = [RespEvent.setHeader "X-Errid".data (reportID rand),
             RespEvent.writeStatus e.code,
             RespEvent.writeBody body] := by
  refine ⟨⟨_, rfl⟩, ?_⟩
  intro rand
  rcases rand with u | g <;> exact ⟨_, rfl⟩

/-- C9: on every successfully written error response the body is the
    MarshalJSON object followed by exactly one newline (json.Encoder.Encode
    appends the newline). -/
theorem respBody_trailing_newline (rand : RandSource) (e : httpError) :
    respBody (apiError rand none e).events
      = "\x7b\"err\":".data ++ jsonQuote (sprintf e.msg e.args) ++ ['\x7d', '\n'] := by
  rcases rand with u | g <;>
    simp [apiError, respBody, httpError.marshalJSON, genUUID, reportID]

/-- C7 counterexample: the body written for error400(err, "id %q empty",
    "abc") is not exactly the JSON object: the encoder appends a newline. -/
theorem error400_body_counterexample :
    respBody (apiError (RandSource.fail ⟨"r".data⟩) none
        (error400 ⟨"x".data⟩ "id %q empty".data [GoValue.str "abc".data])).events
      ≠ "\x7b\"err\":\"id \\\"abc\\\" empty\"\x7d".data := by
  decide

/-- C7 amended: reporting the httpError built by error400(err, "id %q empty",
    "abc") writes status 400 and body exactly the JSON object followed by
    one newline. -/
theorem error400_body (rand : RandSource) (c : GoErr) :
    respStatus (apiError rand none
        (error400 c "id %q empty".data [GoValue.str "abc".data])).events = some 400
    ∧ respBody (apiError rand none
        (error400 c "id %q empty".data [GoValue.str "abc".data])).events
      = "\x7b\"err\":\"id \\\"abc\\\" empty\"\x7d\n".data := by
  rcases rand with u | g <;>
    exact ⟨rfl, by simp [apiError, respBody, httpError.marshalJSON, genUUID, reportID,
      error400, newHTTPError, sprintf, fmtLoop, fmtValue, goQuote, goQuoteBody, quoteChar,
      jsonQuote, jsonQuoteBody, jsonQuoteChar]⟩

/-- C10: the /example route reports error500 of a wrapped errBroken: the
    response status is 500, the body is the generic JSON object (plus the
    encoder's newline), and the internal detail "server broken" appears
    nowhere in the body. -/
theorem exampleHandler_response (rand : RandSource) :
    respStatus (exampleHandler rand none).events = some 500
    ∧ respBody (exampleHandler rand none).events
      = "\x7b\"err\":\"internal server error\"\x7d\n".data
    ∧ containsSub "server broken".data (respBody (exampleHandler rand none).events) = false := by
  have hbody : respBody (exampleHandler rand none).events
      = "\x7b\"err\":\"internal server error\"\x7d\n".data := by
    rcases rand with u | g <;>
      simp [exampleHandler, apiError, respBody, httpError.marshalJSON, genUUID, reportID,
        error500, newHTTPError, sprintf, fmtLoop, fmtValue,
        jsonQuote, jsonQuoteBody, jsonQuoteChar]
  refine ⟨?_, hbody, ?_⟩
  · rcases rand with u | g <;> rfl
  · rw [hbody]; decide

/-- C3: when CorrelationID generation fails the reporter proceeds with the
    empty identifier: it writes the same status and the same body as it
    would with any successfully generated identifier, the header carries
    the empty string, and it first logs its own distinct message about the
    generation failure (different from the normal correlation line). -/
theorem apiError_degrade (ge : GoErr) (u : List Nat) (e : httpError) :
    respStatus (apiError (RandSource.fail ge) none e).events
      = respStatus (apiError (RandSource.ok u) none e).events
    ∧ respBody (apiError (RandSource.fail ge) none e).events
      = respBody (apiError (RandSource.ok u) none e).events
    ∧ getHeader "X-Errid".data (apiError (RandSource.fail ge) none e).events = some []
    ∧ (apiError (RandSource.fail ge) none e).logs
      = ["genErr=genUUID: ".data ++ ge.msg
           ++ ", msg=\"error while reporting API error\"".data,
         "errID=\"\", err=".data ++ e.cause.msg]
    ∧ "genErr=genUUID: ".data ++ ge.msg
        ++ ", msg=\"error while reporting API error\"".data
      ≠ "errID=\"\", err=".data ++ e.cause.msg := by
  refine ⟨rfl, rfl, rfl, ?_, ?_⟩
  · simp [apiError, genUUID, reportID, httpError.marshalJSON, sprintf, fmtLoop, fmtValue,
      goQuote, goQuoteBody, quoteChar, GoValue.plain]
  · intro h
    simp at h

/-- C4 counterexample: no header named X-Error-Id is ever set; the key the
    reporter sets is X-Errid. -/
theorem apiError_header_name_counterexample :
    getHeader "X-Error-Id".data
        (apiError (RandSource.fail ⟨"entropy gone".data⟩) none (error500 ⟨"boom".data⟩)).events
      = none
    ∧ getHeader "X-Errid".data
        (apiError (RandSource.fail ⟨"entropy gone".data⟩) none (error500 ⟨"boom".data⟩)).events
      = some [] := by
  decide

/-- C4 amended: every call to the reporter, with any httpError and whether
    or not generation succeeds, sets the response header X-Errid before
    writing the status code; on generation failure its value is the empty
    string but the key is present. -/
theorem apiError_sets_errid_header (rand : RandSource) (wErr : Option GoErr) (e : httpError) :
    ∃ id rest,
      (apiError rand wErr e).events
        = RespEvent.setHeader "X-Errid".data id :: RespEvent.writeStatus e.code :: rest
      ∧ getHeader "X-Errid".data (apiError rand wErr e).events = some id
      ∧ ∀ g, rand = RandSource.fail g → id = [] := by
  rcases rand with u | g <;> rcases wErr with _ | we
  · exact ⟨_, _, rfl, rfl, fun g hg => by cases hg⟩
  · exact ⟨_, _, rfl, rfl, fun g hg => by cases hg⟩
  · exact ⟨_, _, rfl, rfl, fun g hg => rfl⟩
  · exact ⟨_, _, rfl, rfl, fun g hg => rfl⟩

/-- C5: when body serialization fails, the reporter emits one log call
    carrying the identifier, the original error and the serialization
    failure together, writes nothing to the body, stops after the status
    line, and never emits the normal success-path log line. -/
theorem apiError_encode_failure (rand : RandSource) (we : GoErr) (e : httpError) :
    ∃ pre,
      (apiError rand (some we) e).logs
        = pre ++ [sprintf "errID=%q, err=%v, encodeErr=%v, msg=%v".data
            [.str (reportID rand), .err e.cause, .err we,
             .str "error while reporting API error".data]]
      ∧ sprintf "errID=%q, err=%v, encodeErr=%v, msg=%v".data
            [.str (reportID rand), .err e.cause, .err we,
             .str "error while reporting API error".data]
          = "errID=".data ++ goQuote (reportID rand) ++ ", err=".data ++ e.cause.msg
              ++ ", encodeErr=".data ++ we.msg ++ ", msg=error while reporting API error".data
      ∧ (apiError rand (some we) e).events
          = [RespEvent.setHeader "X-Errid".data (reportID rand),
             RespEvent.writeStatus e.code]
      ∧ respBody (apiError rand (some we) e).events = []
      ∧ sprintf "errID=%q, err=%v".data [.str (reportID rand), .err e.cause]
          ∉ (apiError rand (some we) e).logs := by
  have key : ∀ id : List Char,
      sprintf "errID=%q, err=%v".data [.str id, .err e.cause]
        ≠ sprintf "errID=%q, err=%v, encodeErr=%v, msg=%v".data
            [.str id, .err e.cause, .err we,
             .str "error while reporting API error".data] := by
    intro id h
    have hl := congrArg List.length h
    simp [sprintf, fmtLoop, fmtValue, goQuote, GoValue.plain] at hl
  have hq : ∀ id : List Char,
      sprintf "errID=%q, err=%v, encodeErr=%v, msg=%v".data
          [.str id, .err e.cause, .err we,
           .str "error while reporting API error".data]
        = "errID=".data ++ goQuote id ++ ", err=".data ++ e.cause.msg
            ++ ", encodeErr=".data ++ we.msg ++ ", msg=error while reporting API error".data := by
    intro id
    simp [sprintf, fmtLoop, fmtValue, goQuote, GoValue.plain]
  rcases rand with u | g
  · refine ⟨[], rfl, hq _, rfl, rfl, ?_⟩
    intro hmem
    exact key _ (List.mem_singleton.mp hmem)
  · refine ⟨["genErr=genUUID: ".data ++ g.msg
        ++ ", msg=\"error while reporting API error\"".data], ?_, hq _, rfl, rfl, ?_⟩
    · simp [apiError, genUUID, reportID, httpError.marshalJSON, sprintf, fmtLoop, fmtValue,
        goQuote, goQuoteBody, quoteChar, GoValue.plain]
    · intro hmem
      rcases List.mem_cons.mp hmem with h | hmem2
      · exact absurd h (by
          simp [sprintf, fmtLoop, fmtValue, goQuote, goQuoteBody, quoteChar, GoValue.plain])
      · exact key _ (List.mem_singleton.mp hmem2)

/-- C6 counterexample: the normal log line for error500 of cause boom with
    an all-zero correlation ID contains neither the status code 500 nor the
    unrendered template, so it is not the full internal error the claim
    describes. -/
theorem apiError_log_counterexample :
    containsSub "500".data
        ((apiError (RandSource.ok [0, 0, 0, 0, 0, 0, 0, 0, 0, 0, 0, 0, 0, 0, 0, 0]) none
          (error500 ⟨"boom".data⟩)).logs.getD 0 []) = false
    ∧ containsSub "internal server error".data
        ((apiError (RandSource.ok [0, 0, 0, 0, 0, 0, 0, 0, 0, 0, 0, 0, 0, 0, 0, 0]) none
          (error500 ⟨"boom".data⟩)).logs.getD 0 []) = false := by
  decide

/-- C6 amended: on every call in which body serialization succeeds, whether
    or not identifier generation succeeded, exactly one normal log line is
    written, as the last line, after nothing (successful generation) or
    after only the generation-failure line; it pairs the quoted correlation
    identifier (empty when generation failed) with the %v rendering of the
    httpError, which is the promoted Error method of the embedded cause, so
    the line carries the cause message but not the status code or the
    unrendered template and args. -/
theorem apiError_success_log (rand : RandSource) (e : httpError) :
    ∃ pre,
      (apiError rand none e).logs
        = pre ++ [sprintf "errID=%q, err=%v".data [.str (reportID rand), .err e.cause]]
      ∧ sprintf "errID=%q, err=%v".data [.str (reportID rand), .err e.cause] ∉ pre
      ∧ (∀ u, rand = RandSource.ok u → pre = [])
      ∧ (∀ g, rand = RandSource.fail g → pre.length = 1)
      ∧ sprintf "errID=%q, err=%v".data [.str (reportID rand), .err e.cause]
          = "errID=".data ++ goQuote (reportID rand) ++ ", err=".data ++ e.cause.msg := by
  rcases rand with u | g
  · refine ⟨[], rfl, by simp, ?_, ?_, ?_⟩
    · intro u2 hu
      rfl
    · intro g2 hg
      cases hg
    · simp [sprintf, fmtLoop, fmtValue, goQuote, GoValue.plain]
  · refine ⟨[sprintf "genErr=%v, msg=%q".data
        [.err ⟨sprintf "genUUID: %v".data [.err g]⟩,
         .str "error while reporting API error".data]],
      rfl, ?_, ?_, ?_, ?_⟩
    · intro hmem
      have h := List.mem_singleton.mp hmem
      simp [sprintf, fmtLoop, fmtValue, goQuote, goQuoteBody, quoteChar, GoValue.plain] at h
    · intro u2 hu
      cases hu
    · intro g2 hg
      rfl
    · simp [reportID, genUUID, sprintf, fmtLoop, fmtValue, goQuote, goQuoteBody, quoteChar,
        GoValue.plain]

/-- C2: a successfully generated correlation ID has 36 characters, literal
    hyphens exactly at offsets 8, 13, 18 and 23, hex digits everywhere
    else, and its 32 hex characters encode exactly the 16 random bytes:
    de-grouping them gives hexEncode of the bytes, and decoding recovers
    the bytes. -/
theorem genUUID_shape (u : List Nat) (h16 : u.length = 16) (hb : ∀ b ∈ u, b < 256) :
    ∃ cs : List Char,
      genUUID (RandSource.ok u) = Except.ok cs
      ∧ cs.length = 36
      ∧ (∀ i, (i = 8 ∨ i = 13 ∨ i = 18 ∨ i = 23) → cs.getD i ' ' = '-')
      ∧ (∀ i, i < 36 → i ≠ 8 → i ≠ 13 → i ≠ 18 → i ≠ 23 → cs.getD i ' ' ∈ hexTable)
      ∧ cs.take 8 ++ (cs.drop 9).take 4 ++ (cs.drop 14).take 4 ++ (cs.drop 19).take 4
          ++ cs.drop 24 = hexEncode u
      ∧ hexDecode (cs.take 8 ++ (cs.drop 9).take 4 ++ (cs.drop 14).take 4
          ++ (cs.drop 19).take 4 ++ cs.drop 24) = u := by
  obtain ⟨b0, b1, b2, b3, b4, b5, b6, b7, b8, b9, b10, b11, b12, b13, b14, b15, rfl⟩ :=
    list16 u h16
  have q0 : b0 < 256 := hb _ (by simp)
  have q1 : b1 < 256 := hb _ (by simp)
  have q2 : b2 < 256 := hb _ (by simp)
  have q3 : b3 < 256 := hb _ (by simp)
  have q4 : b4 < 256 := hb _ (by simp)
  have q5 : b5 < 256 := hb _ (by simp)
  have q6 : b6 < 256 := hb _ (by simp)
  have q7 : b7 < 256 := hb _ (by simp)
  have q8 : b8 < 256 := hb _ (by simp)
  have q9 : b9 < 256 := hb _ (by simp)
  have q10 : b10 < 256 := hb _ (by simp)
  have q11 : b11 < 256 := hb _ (by simp)
  have q12 : b12 < 256 := hb _ (by simp)
  have q13 : b13 < 256 := hb _ (by simp)
  have q14 : b14 < 256 := hb _ (by simp)
  have q15 : b15 < 256 := hb _ (by simp)
  refine ⟨[hexDigit (b0 / 16), hexDigit (b0 % 16), hexDigit (b1 / 16), hexDigit (b1 % 16),
           hexDigit (b2 / 16), hexDigit (b2 % 16), hexDigit (b3 / 16), hexDigit (b3 % 16),
           '-',
           hexDigit (b4 / 16), hexDigit (b4 % 16), hexDigit (b5 / 16), hexDigit (b5 % 16),
           '-',
           hexDigit (b6 / 16), hexDigit (b6 % 16), hexDigit (b7 / 16), hexDigit (b7 % 16),
           '-',
           hexDigit (b8 / 16), hexDigit (b8 % 16), hexDigit (b9 / 16), hexDigit (b9 % 16),
           '-',
           hexDigit (b10 / 16), hexDigit (b10 % 16), hexDigit (b11 / 16), hexDigit (b11 % 16),
           hexDigit (b12 / 16), hexDigit (b12 % 16), hexDigit (b13 / 16), hexDigit (b13 % 16),
           hexDigit (b14 / 16), hexDigit (b14 % 16), hexDigit (b15 / 16), hexDigit (b15 % 16)],
         rfl, rfl, ?_, ?_, rfl, ?_⟩
  · intro i hi
    rcases hi with rfl | rfl | rfl | rfl <;> rfl
  · intro i h36 hi8 hi13 hi18 hi23
    interval_cases i <;> first | omega | exact hexDigit_mem _ (by omega)
  · show hexDecode (hexEncode
      [b0, b1, b2, b3, b4, b5, b6, b7, b8, b9, b10, b11, b12, b13, b14, b15]) = _
    exact hexDecode_hexEncode _ hb

/-- C2 witness: the shape theorem applied to a concrete 16-byte read. -/
theorem genUUID_shape_witness :
    ∃ cs : List Char,
      genUUID (RandSource.ok
          [0, 17, 34, 51, 68, 85, 102, 119, 136, 153, 170, 187, 204, 221, 238, 255])
        = Except.ok cs
      ∧ cs.length = 36 := by
  obtain ⟨cs, h1, h2, -⟩ := genUUID_shape
    [0, 17, 34, 51, 68, 85, 102, 119, 136, 153, 170, 187, 204, 221, 238, 255]
    (by decide) (by decide)
  exact ⟨cs, h1, h2⟩
